import Mathlib

/-
Shallow embedding of the decision-and-supervision logic of the
koku-test-container CI helper scripts (files/bin/deploy.py and
files/bin/deploy-iqe-cji.py).  Pure functions are translated directly.
Process effects are made explicit: environment variables become
parameters (with "" or none for an unset variable, matching Python
truthiness), network calls and duration parsing become oracle function
parameters, randomness becomes an entropy-stream parameter, printing
becomes returned strings, and sys.exit becomes an explicit exit code or
an Except error value.
-/

/-- Python string slicing s[:n], modelled on the character list. -/
def strTake (s : String) (n : Nat) : String := String.mk (s.data.take n)

/-- Python str.endswith, modelled on the character lists. -/
def endsWithStr (s suffix : String) : Bool := suffix.data.isSuffixOf s.data

/-- Outcome of the pre-submission label gate of IQERunner.run
(deploy-iqe-cji.py lines 220-239): earlyExit means run returns or exits
with the given process exit code before run_pod is reached, so the
job-launch contract is never invoked and no job handle is created;
submit means control falls through to run_pod, which submits the test
job. -/
inductive GateOutcome where
  | earlyExit (code : Nat)
  | submit
  deriving DecidableEq

/-- Label gate of IQERunner.run (deploy-iqe-cji.py lines 220-239): an
ok-to-skip-smokes label returns immediately (exit 0); otherwise, unless
run-konflux-tests is present, run returns (exit 0); otherwise
smokes-required without any label ending in smoke-tests exits fatally
via sys.exit with a message (exit code 1); otherwise run_pod is called.
The pr_labels-is-not-None guard in the source is always true because
pr_labels is always a set. -/
def iqe_run_gate (labels : List String) : GateOutcome :=
  if labels.contains "ok-to-skip-smokes" then .earlyExit 0
  else if !labels.contains "run-konflux-tests" then .earlyExit 0
  else if labels.contains "smokes-required"
      && !labels.any (fun l => endsWithStr l "smoke-tests") then .earlyExit 1
  else .submit

/-- Filter expression selected by the aws-smoke-tests label
(deploy-iqe-cji.py line 117). -/
def awsFilterExpression : String :=
  "test_api_aws or test_api_ocp_on_aws or test_api_cost_model_aws or test_api_cost_model_ocp_on_aws"

/-- Filter expression selected by the azure-smoke-tests label
(deploy-iqe-cji.py line 119). -/
def azureFilterExpression : String :=
  "test_api_azure or test_api_ocp_on_azure or test_api_cost_model_azure or test_api_cost_model_ocp_on_azure"

/-- Filter expression selected by the gcp-smoke-tests label
(deploy-iqe-cji.py line 121). -/
def gcpFilterExpression : String :=
  "test_api_gcp or test_api_ocp_on_gcp or test_api_cost_model_gcp or test_api_cost_model_ocp_on_gcp"

/-- Filter expression selected by the oci-smoke-tests label
(deploy-iqe-cji.py line 123). -/
def ociFilterExpression : String :=
  "test_api_oci or test_api_cost_model_oci"

/-- Filter expression selected by the ocp-smoke-tests label
(deploy-iqe-cji.py lines 125-128, the two adjacent string literals
concatenated). -/
def ocpFilterExpression : String :=
  "(test_api_ocp or test_api_cost_model_ocp or aws_ingest_single or aws_ingest_multi) and not ocp_on_gcp and not ocp_on_azure and not ocp_on_cloud"

/-- Filter expression selected by the cost-model-smoke-tests label
(deploy-iqe-cji.py line 130). -/
def costModelFilterExpression : String :=
  "test_api_cost_model or ocp_source_raw"

/-- IQERunner.iqe_filter_expression (deploy-iqe-cji.py lines 110-134).
The override argument models the IQE_FILTER_EXPRESSION environment
variable, "" when unset; the walrus-if in the source takes it when it is
truthy, that is nonempty. -/
def iqe_filter_expression (override : String) (labels : List String) : String :=
  if override != "" then override
  else if labels.contains "aws-smoke-tests" then awsFilterExpression
  else if labels.contains "azure-smoke-tests" then azureFilterExpression
  else if labels.contains "gcp-smoke-tests" then gcpFilterExpression
  else if labels.contains "oci-smoke-tests" then ociFilterExpression
  else if labels.contains "ocp-smoke-tests" then ocpFilterExpression
  else if labels.contains "cost-model-smoke-tests" then costModelFilterExpression
  else if labels.contains "hot-fix-smoke-tests" || labels.contains "full-run-smoke-tests"
      || labels.contains "smoke-tests" then "test_api"
  else ""

/-- Ordered rule table as the spec states it: each rule is the list of
labels that fire it together with the selected expression, checked in
this fixed priority order, first match wins.  This definition follows
the words of the spec and is compared with iqe_filter_expression, the
definition taken from the source. -/
def filterRules : List (List String × String) :=
  [(["aws-smoke-tests"], awsFilterExpression),
   (["azure-smoke-tests"], azureFilterExpression),
   (["gcp-smoke-tests"], gcpFilterExpression),
   (["oci-smoke-tests"], ociFilterExpression),
   (["ocp-smoke-tests"], ocpFilterExpression),
   (["cost-model-smoke-tests"], costModelFilterExpression),
   (["hot-fix-smoke-tests", "full-run-smoke-tests", "smoke-tests"], "test_api")]

/-- First-match evaluation of an ordered rule table, returning the empty
expression when no rule matches (spec section 4.2). -/
def firstMatchingRule (labels : List String) : List (List String × String) → String
  | [] => ""
  | r :: rest => if r.1.any labels.contains then r.2 else firstMatchingRule labels rest

/-- The four per-cloud-provider rules, in their table order. -/
def cloudProviderRules : List (String × String) :=
  [("aws-smoke-tests", awsFilterExpression),
   ("azure-smoke-tests", azureFilterExpression),
   ("gcp-smoke-tests", gcpFilterExpression),
   ("oci-smoke-tests", ociFilterExpression)]

/-- IQERunner.iqe_marker_expression (deploy-iqe-cji.py lines 136-149).
The override argument models the IQE_MARKER_EXPRESSION environment
variable, "" when unset. -/
def iqe_marker_expression (override : String) (labels : List String) : String :=
  if override != "" then override
  else if labels.contains "ocp-smoke-tests" then "cost_smoke and not cost_exclude_ocp_smokes"
  else if labels.contains "hot-fix-smoke-tests" then "cost_hotfix"
  else if labels.contains "smoke-tests" then "cost_required"
  else "cost_smoke"

/-- Report printed by IQERunner.check_cji_jobs: either all sub-jobs
completed or some failed; both carry the full fetched job map, which the
source interpolates into the printed line. -/
inductive CjiReport where
  | allSucceeded (jobMap : List (String × String))
  | someFailed (jobMap : List (String × String))
  deriving DecidableEq

/-- IQERunner.check_cji_jobs (deploy-iqe-cji.py lines 206-218).  The
argument is the job status map freshly fetched from the cluster at
verdict time; the function of that map alone decides the verdict.
Returns the printed report and the process exit code: 1 via sys.exit(1)
when any sub-job value differs from Complete, otherwise fall-through
exit 0. -/
def check_cji_jobs (jobMap : List (String × String)) : CjiReport × Nat :=
  if jobMap.any (fun p => p.2 != "Complete") then (.someFailed jobMap, 1)
  else (.allSucceeded jobMap, 0)

/-- get_timeout (deploy.py lines 127-137).  fuzzydate.to_seconds is
passed as an oracle; envValue models os.environ.get(env_var), none when
unset so the source default "2h" applies.  Returns the timeout in
seconds together with the list of warning lines printed; a parse
failure prints one warning and substitutes 2 hours, and a truthy label
set containing full-run-smoke-tests overrides the value with 5 hours. -/
def get_timeout (to_seconds : String → Except String Nat) (envValue : Option String)
    (labels : List String) : Nat × List String :=
  let parsed : Nat × List String :=
    match to_seconds (envValue.getD "2h") with
    | .ok t => (t, [])
    | .error e => (2 * 60 * 60, [e ++ ". Using default value of 2h"])
  if !labels.isEmpty && labels.contains "full-run-smoke-tests" then (5 * 60 * 60, parsed.2)
  else parsed

/-- Git model of deploy.py (models.Git re-exported there): url and
revision.  AnyUrl validation is not modelled; a raw payload whose url
field is malformed falls under RawPayload.malformed. -/
structure Git where
  url : String
  revision : String
  deriving DecidableEq

/-- Source model of deploy.py. -/
structure Source where
  git : Git
  deriving DecidableEq

/-- ContainerImage model of deploy.py: the two halves of the combined
image string. -/
structure ContainerImage where
  image : String
  sha : String
  deriving DecidableEq

/-- Component model of deploy.py after validation. -/
structure Component where
  name : String
  container_image : ContainerImage
  source : Source
  deriving DecidableEq

/-- Snapshot model of deploy.py after validation. -/
structure Snapshot where
  application : String
  components : List Component
  deriving DecidableEq

/-- One component record of the raw SNAPSHOT payload before the
container_image_validator has run: containerImage is the combined
string when the key is present in the component mapping, and none when
the key is absent, in which case data["containerImage"] in the
validator raises KeyError.  A containerImage value that is not a string
raises an uncaught AttributeError at the .split call and behaves like
the missing key; it is not modelled separately. -/
structure RawComponent where
  name : String
  containerImage : Option String
  source : Source
  deriving DecidableEq

/-- Raw SNAPSHOT payload as seen by Snapshot.model_validate_json.
malformed covers an absent SNAPSHOT variable and every payload that
pydantic itself rejects with a ValidationError before an image split is
attempted: not valid JSON, wrong outer shape, or a component that is
not a mapping (the isinstance check raises ValueError, which pydantic
converts).  A payload whose component mappings are present but may lack
the containerImage key is wellFormed here; that missing key is a
distinct, uncaught failure, see snapshotOrExit. -/
inductive RawPayload where
  | malformed
  | wellFormed (application : String) (components : List RawComponent)
  deriving DecidableEq

/-- Leftmost split of a character list at a separator occurrence:
returns the separator-free part before the first occurrence and
everything after it, or none when the separator does not occur. -/
def splitFirst (sep : List Char) : List Char → Option (List Char × List Char)
  | [] => none
  | c :: rest =>
    if sep.isPrefixOf (c :: rest) then some ([], (c :: rest).drop sep.length)
    else
      match splitFirst sep rest with
      | some (a, b) => some (c :: a, b)
      | none => none

/-- Python image, sha = s.split("@sha256:") in
Component.container_image_validator (deploy.py line 60): the two-way
unpacking succeeds exactly when the separator occurs exactly once, that
is the part after the leftmost occurrence holds no further occurrence;
any other shape raises and the whole snapshot validation fails. -/
def splitImage (s : String) : Option (String × String) :=
  match splitFirst "@sha256:".data s.data with
  | some (a, b) =>
    if splitFirst "@sha256:".data b = none then some (String.mk a, String.mk b) else none
  | none => none

/-- Result of container_image_validator (deploy.py lines 54-62) on one
component record: parsed when the two-way split succeeds; valueError
when the unpacking raises ValueError (a shape pydantic converts into a
collected ValidationError); keyError when data["containerImage"] raises
KeyError, which pydantic v2 does not convert and which therefore
propagates out of model_validate_json. -/
inductive ComponentValidation where
  | parsed (c : Component)
  | valueError
  | keyError
  deriving DecidableEq

/-- Component.container_image_validator on one raw component. -/
def validateComponent (rc : RawComponent) : ComponentValidation :=
  match rc.containerImage with
  | none => .keyError
  | some img =>
    match splitImage img with
    | some p =>
      .parsed { name := rc.name, container_image := { image := p.1, sha := p.2 },
                source := rc.source }
    | none => .valueError

/-- Aggregate result of validating the component list. -/
inductive ComponentsValidation where
  | parsed (cs : List Component)
  | validationError
  | keyError
  deriving DecidableEq

/-- Pydantic v2 validation of the component list: every list item is
validated and ValueError results are collected into one
ValidationError, but a KeyError raised by any item propagates
immediately and aborts the whole call, so a missing containerImage key
anywhere dominates, any ValueError otherwise yields a ValidationError,
and only a fully valid list parses; no partial list is ever produced. -/
def validateComponents : List RawComponent → ComponentsValidation
  | [] => .parsed []
  | rc :: rest =>
    match validateComponent rc, validateComponents rest with
    | .keyError, _ => .keyError
    | _, .keyError => .keyError
    | .valueError, _ => .validationError
    | _, .validationError => .validationError
    | .parsed c, .parsed cs => .parsed (c :: cs)

/-- A raw component whose containerImage key is present and whose value
has the repository-at-sha256-digest shape. -/
def hasValidImage (rc : RawComponent) : Bool :=
  match rc.containerImage with
  | some img => (splitImage img).isSome
  | none => false

/-- Process-level outcome of snapshot parsing: a validated Snapshot, a
sys.exit with the echoed diagnostic, or an uncaught exception that
terminates the process with a traceback and no echoed diagnostic. -/
inductive SnapshotOutcome where
  | ok (s : Snapshot)
  | exitWithDiagnostic (msg : String)
  | uncaughtException
  deriving DecidableEq

/-- Snapshot.model_validate_json inside the try/except of deploy.py
main (lines 172-176) and IQERunner.init (deploy-iqe-cji.py lines
49-53): a ValidationError is caught and turned into sys.exit with a
diagnostic echoing the raw payload string, while a KeyError from the
validator is not a ValidationError, escapes the except clause, and
kills the process without the echo. -/
def snapshotOrExit (raw : RawPayload) (payloadStr : String) : SnapshotOutcome :=
  match raw with
  | .malformed => .exitWithDiagnostic ("Missing or invalid SNAPSHOT: " ++ payloadStr)
  | .wellFormed app comps =>
    match validateComponents comps with
    | .parsed cs => .ok { application := app, components := cs }
    | .validationError => .exitWithDiagnostic ("Missing or invalid SNAPSHOT: " ++ payloadStr)
    | .keyError => .uncaughtException

/-- One bonfire deploy command-line binding emitted by
get_component_options: a pair of consecutive tokens, either
--set-template-ref value or --set-parameter value. -/
inductive BonfireOption where
  | setTemplateRef (value : String)
  | setParameter (value : String)
  deriving DecidableEq

/-- Value of a template-reference binding, none for a parameter
binding. -/
def templateRefValue : BonfireOption → Option String
  | .setTemplateRef v => some v
  | .setParameter _ => none

/-- Number of --set-template-ref bindings in an option list. -/
def countTemplateRefs (l : List BonfireOption) : Nat :=
  (l.filter fun o => match o with | .setTemplateRef _ => true | .setParameter _ => false).length

/-- Number of --set-parameter pairs in an option list. -/
def countSetParameters (l : List BonfireOption) : Nat :=
  (l.filter fun o => match o with | .setTemplateRef _ => false | .setParameter _ => true).length

/-- Python os.environ.get("BONFIRE_COMPONENT_NAME") or component.name
(deploy.py line 92): the environment override, "" when unset, replaces
every component name. -/
def componentName (bonfireComponentName : String) (c : Component) : String :=
  if bonfireComponentName != "" then bonfireComponentName else c.name

/-- Options contributed by one component in get_component_options
(deploy.py lines 91-113).  rnd is the entropy drawn for this component
by secrets.randbelow(100), modelled as an arbitrary natural reduced
mod 100, which yields exactly the values randbelow can return. -/
def optionsForComponent (pre build_number bonfireComponentName : String) (rnd : Nat)
    (c : Component) : List BonfireOption :=
  let name := componentName bonfireComponentName c
  let revision := strTake c.source.git.revision 7
  let image := c.container_image.image
  [BonfireOption.setTemplateRef (name ++ "=" ++ c.source.git.revision),
   BonfireOption.setParameter (name ++ "/IMAGE=" ++ image),
   BonfireOption.setParameter (name ++ "/IMAGE_TAG=" ++ pre ++ revision),
   BonfireOption.setParameter (name ++ "/DBM_IMAGE=" ++ image),
   BonfireOption.setParameter (name ++ "/DBM_IMAGE_TAG=" ++ pre ++ revision),
   BonfireOption.setParameter (name ++ "/DBM_INVOCATION=" ++ toString (rnd % 100))]
  ++ (if componentName bonfireComponentName c = "koku" then
        [BonfireOption.setParameter
          (name ++ "/SCHEMA_SUFFIX=_" ++ pre ++ revision ++ "_" ++ build_number)]
      else [])

/-- The per-component loop of get_component_options, threading the index
of the next secrets.randbelow call. -/
def componentOptionsFrom (pre build_number bonfireComponentName : String) (rand : Nat → Nat) :
    Nat → List Component → List BonfireOption
  | _, [] => []
  | i, c :: rest =>
    optionsForComponent pre build_number bonfireComponentName (rand i) c
      ++ componentOptionsFrom pre build_number bonfireComponentName rand (i + 1) rest

/-- get_component_options (deploy.py lines 85-115).  rand i is the
entropy of the i-th secrets.randbelow(100) call; build_number is the
value of get_run_identifier(). -/
def get_component_options (bonfireComponentName pr_number build_number : String)
    (rand : Nat → Nat) (components : List Component) : List BonfireOption :=
  let pre := if pr_number != "" then "pr-" ++ pr_number ++ "-" else ""
  componentOptionsFrom pre build_number bonfireComponentName rand 0 components

/-- IQERunner.get_check_run_identifier (deploy-iqe-cji.py lines 55-68):
CHECK_RUN_ID, "" when unset; Python str.isdigit is modelled as
nonempty-and-all-digits on the character list. -/
def get_check_run_identifier (check_run_id : String) : String :=
  if !check_run_id.isEmpty && check_run_id.data.all Char.isDigit then strTake check_run_id 5
  else "1"

/-- Response of the label API network oracle: the decoded label names,
or an HTTPError carrying its status code. -/
inductive FetchResult where
  | ok (labelNames : List String)
  | httpError (code : Nat)
  deriving DecidableEq

/-- URL built by get_pr_labels (deploy.py line 148). -/
def prUrl (owner repo pr_number : String) : String :=
  "https://api.github.com/repos/" ++ owner ++ "/" ++ repo ++ "/pulls/" ++ pr_number

/-- get_pr_labels (deploy.py lines 140-155).  fetch is the network
oracle (urllib.request.urlopen plus JSON decoding of the label names).
Returns the result, where error carries the sys.exit diagnostic, paired
with the list of URLs actually requested, so that making no call and
making exactly one call are visible in the model. -/
def get_pr_labels (fetch : String → FetchResult) (pr_number owner repo : String) :
    Except String (List String) × List String :=
  if pr_number = "" then (.ok [], [])
  else
    match fetch (prUrl owner repo pr_number) with
    | .ok labelNames => (.ok labelNames, [prUrl owner repo pr_number])
    | .httpError code =>
      (.error ("Error " ++ toString code ++ " retrieving " ++ prUrl owner repo pr_number ++ "."),
       [prUrl owner repo pr_number])

/-- Sample component named koku for concrete evaluation. -/
def sampleKokuComponent : Component :=
  { name := "koku"
    container_image := { image := "quay.io/koku", sha := "aa" }
    source := { git := { url := "https://example.com/koku", revision := "deadbeef123" } } }

/-- Sample component not named koku for concrete evaluation. -/
def sampleOtherComponent : Component :=
  { name := "other"
    container_image := { image := "quay.io/other", sha := "bb" }
    source := { git := { url := "https://example.com/other", revision := "cafebabe456" } } }

/-- Sample raw component whose image string lacks the digest shape. -/
def sampleBadRawComponent : RawComponent :=
  { name := "koku"
    containerImage := some "quay.io/koku"
    source := { git := { url := "https://example.com/koku", revision := "deadbeef123" } } }

/-- Sample raw component with a well-shaped image string. -/
def sampleGoodRawComponent : RawComponent :=
  { name := "koku"
    containerImage := some "quay.io/koku@sha256:abc"
    source := { git := { url := "https://example.com/koku", revision := "deadbeef123" } } }

/-- Sample raw component whose mapping lacks the containerImage key. -/
def sampleMissingKeyRawComponent : RawComponent :=
  { name := "koku"
    containerImage := none
    source := { git := { url := "https://example.com/koku", revision := "deadbeef123" } } }

/-- C1 counterexample: with labels exactly smokes-required and no label
ending in smoke-tests, IQERunner.run returns with process exit status 0
and never invokes the job-launch contract, while the claim requires a
fatal nonzero exit for this label set: the run-konflux-tests guard
returns first, before the smokes-required configuration check. -/
theorem iqe_gate_required_counterexample :
    iqe_run_gate ["smokes-required"] = .earlyExit 0 := by decide

/-- C1 (amended): a label set containing ok-to-skip-smokes makes
IQERunner.run return with exit status 0 before any job submission; and
a label set containing smokes-required together with run-konflux-tests
(and no ok-to-skip-smokes) but no label ending in smoke-tests makes the
run exit fatally with a nonzero status before any job submission.  The
amendment adds the run-konflux-tests requirement: the fatal
smokes-required check is only reachable when that label is present. -/
theorem iqe_gate_skip_and_required (labels : List String) :
    (labels.contains "ok-to-skip-smokes" = true → iqe_run_gate labels = .earlyExit 0) ∧
    (labels.contains "ok-to-skip-smokes" = false →
      labels.contains "run-konflux-tests" = true →
      labels.contains "smokes-required" = true →
      labels.any (fun l => endsWithStr l "smoke-tests") = false →
      iqe_run_gate labels = .earlyExit 1) := by
  constructor
  · intro h
    simp_all [iqe_run_gate]
  · intro h1 h2 h3 h4
    simp_all [iqe_run_gate]

/-- C1 witness: both amended branches at concrete label sets. -/
theorem iqe_gate_skip_and_required_witness :
    iqe_run_gate ["ok-to-skip-smokes"] = .earlyExit 0 ∧
    iqe_run_gate ["run-konflux-tests", "smokes-required"] = .earlyExit 1 :=
  ⟨(iqe_gate_skip_and_required ["ok-to-skip-smokes"]).1 (by decide),
   (iqe_gate_skip_and_required ["run-konflux-tests", "smokes-required"]).2
     (by decide) (by decide) (by decide) (by decide)⟩

/-- C2: when the label set contains neither ok-to-skip-smokes nor
run-konflux-tests, IQERunner.run returns with exit status 0 and never
invokes the job-launch contract, even if smokes-required is present
without any label ending in smoke-tests, because the run-konflux-tests
guard is evaluated before the smokes-required configuration check. -/
theorem iqe_gate_konflux_guard (labels : List String)
    (hskip : labels.contains "ok-to-skip-smokes" = false)
    (hkon : labels.contains "run-konflux-tests" = false) :
    iqe_run_gate labels = .earlyExit 0 := by
  simp_all [iqe_run_gate]

/-- C2 witness: the smokes-required-only label set exits 0 without
submitting. -/
theorem iqe_gate_konflux_guard_witness :
    iqe_run_gate ["smokes-required"] = .earlyExit 0 :=
  iqe_gate_konflux_guard ["smokes-required"] (by decide) (by decide)

/-- C4 counterexample: the generic smoke-tests label selects
cost_required while the no-label default selects cost_smoke, so the
claim that both the generic-smoke branch and the default branch return
the same required marker is false. -/
theorem iqe_marker_default_counterexample :
    iqe_marker_expression "" ["smoke-tests"] = "cost_required" ∧
    iqe_marker_expression "" [] = "cost_smoke" ∧
    ("cost_required" : String) ≠ "cost_smoke" := by decide

/-- C4 (amended): an explicit override is returned unconditionally;
otherwise ocp-smoke-tests selects the scoped marker excluding the named
exclusion set, then hot-fix-smoke-tests selects the hot-fix marker,
then the generic smoke-tests label selects the required marker
cost_required, and the default, in particular for the empty label set,
is the distinct plain smoke marker cost_smoke, not an error.  The
amendment: the default marker is cost_smoke, not the required marker
selected by the generic smoke-tests label. -/
theorem iqe_marker_selection_amended (override : String) (labels : List String) :
    (override ≠ "" → iqe_marker_expression override labels = override) ∧
    (labels.contains "ocp-smoke-tests" = true →
      iqe_marker_expression "" labels = "cost_smoke and not cost_exclude_ocp_smokes") ∧
    (labels.contains "ocp-smoke-tests" = false →
      labels.contains "hot-fix-smoke-tests" = true →
      iqe_marker_expression "" labels = "cost_hotfix") ∧
    (labels.contains "ocp-smoke-tests" = false →
      labels.contains "hot-fix-smoke-tests" = false →
      labels.contains "smoke-tests" = true →
      iqe_marker_expression "" labels = "cost_required") ∧
    (labels.contains "ocp-smoke-tests" = false →
      labels.contains "hot-fix-smoke-tests" = false →
      labels.contains "smoke-tests" = false →
      iqe_marker_expression "" labels = "cost_smoke") := by
  refine ⟨?_, ?_, ?_, ?_, ?_⟩ <;> intros <;> simp_all [iqe_marker_expression]

/-- C4 witness: override, scoped, and empty-set default branches at
concrete inputs. -/
theorem iqe_marker_selection_witness :
    iqe_marker_expression "M" [] = "M" ∧
    iqe_marker_expression "" ["ocp-smoke-tests"] = "cost_smoke and not cost_exclude_ocp_smokes" ∧
    iqe_marker_expression "" [] = "cost_smoke" :=
  ⟨(iqe_marker_selection_amended "M" []).1 (by decide),
   (iqe_marker_selection_amended "" ["ocp-smoke-tests"]).2.1 (by decide),
   (iqe_marker_selection_amended "" []).2.2.2.2 rfl rfl rfl⟩

/-- C9: get_check_run_identifier is a function of the CHECK_RUN_ID value
alone (deterministic, never randomized): a nonempty all-digit value
yields its first five characters, any other value, the empty string
included, yields the literal "1"; with the three concrete examples of
the spec. -/
theorem check_run_identifier_spec (s : String) :
    ((!s.isEmpty && s.data.all Char.isDigit) = true →
      get_check_run_identifier s = strTake s 5) ∧
    ((!s.isEmpty && s.data.all Char.isDigit) = false →
      get_check_run_identifier s = "1") ∧
    get_check_run_identifier "31510716818" = "31510" ∧
    get_check_run_identifier "" = "1" ∧
    get_check_run_identifier "abcde" = "1" := by
  refine ⟨?_, ?_, by decide, by decide, by decide⟩
  · intro h
    simp [get_check_run_identifier, h]
  · intro h
    simp [get_check_run_identifier, h]

/-- C9 witness: both conditional branches at concrete inputs. -/
theorem check_run_identifier_witness :
    get_check_run_identifier "1234567" = strTake "1234567" 5 ∧
    get_check_run_identifier "x1" = "1" :=
  ⟨(check_run_identifier_spec "1234567").1 (by decide),
   (check_run_identifier_spec "x1").2.1 (by decide)⟩

/-- C10: get_pr_labels with an empty pull-request number returns the
empty label set and requests no URL at all; and whenever the API oracle
answers the request URL with an HTTPError, the run terminates fatally
with a diagnostic carrying the status code and the URL, after exactly
one request and with no retry. -/
theorem pr_labels_fetch_behavior (fetch : String → FetchResult) (owner repo : String) :
    get_pr_labels fetch "" owner repo = (.ok [], []) ∧
    (∀ pr_number code, pr_number ≠ "" →
      fetch (prUrl owner repo pr_number) = .httpError code →
      get_pr_labels fetch pr_number owner repo =
        (.error ("Error " ++ toString code ++ " retrieving " ++ prUrl owner repo pr_number ++ "."),
         [prUrl owner repo pr_number])) := by
  constructor
  · rfl
  · intro pr code hpr hf
    simp [get_pr_labels, hpr, hf]

/-- C10 witness: empty number makes no request; a 404 on PR 123 exits
with the code and URL in the diagnostic after one request. -/
theorem pr_labels_fetch_witness :
    get_pr_labels (fun _ => .httpError 404) "" "project-koku" "koku" = (.ok [], []) ∧
    get_pr_labels (fun _ => .httpError 404) "123" "project-koku" "koku" =
      (.error ("Error " ++ toString 404 ++ " retrieving "
          ++ prUrl "project-koku" "koku" "123" ++ "."),
       [prUrl "project-koku" "koku" "123"]) :=
  ⟨(pr_labels_fetch_behavior (fun _ => .httpError 404) "project-koku" "koku").1,
   (pr_labels_fetch_behavior (fun _ => .httpError 404) "project-koku" "koku").2
     "123" 404 (by decide) rfl⟩

/-- C3: iqe_filter_expression returns a supplied override
unconditionally; without an override it equals first-match evaluation
of the fixed rule table in the priority order aws, azure, gcp, oci,
ocp, cost-model, then the generic hot-fix/full-run/smoke family; it
returns the empty string when no rule label is present; and a label set
whose only cloud-provider smoke label is a given provider selects
exactly that provider expression. -/
theorem iqe_filter_selection (override : String) (labels : List String) :
    (override ≠ "" → iqe_filter_expression override labels = override) ∧
    iqe_filter_expression "" labels = firstMatchingRule labels filterRules ∧
    (labels.contains "aws-smoke-tests" = false →
      labels.contains "azure-smoke-tests" = false →
      labels.contains "gcp-smoke-tests" = false →
      labels.contains "oci-smoke-tests" = false →
      labels.contains "ocp-smoke-tests" = false →
      labels.contains "cost-model-smoke-tests" = false →
      labels.contains "hot-fix-smoke-tests" = false →
      labels.contains "full-run-smoke-tests" = false →
      labels.contains "smoke-tests" = false →
      iqe_filter_expression "" labels = "") ∧
    (∀ r ∈ cloudProviderRules, labels.contains r.1 = true →
      (∀ q ∈ cloudProviderRules, q ≠ r → labels.contains q.1 = false) →
      iqe_filter_expression "" labels = r.2) := by
  refine ⟨?_, ?_, ?_, ?_⟩
  · intro h
    simp_all [iqe_filter_expression]
  · simp [iqe_filter_expression, firstMatchingRule, filterRules, or_assoc]
  · intros
    simp_all [iqe_filter_expression]
  · intro r hr hcon hothers
    fin_cases hr
    · simp_all [iqe_filter_expression]
    · have haws := hothers ("aws-smoke-tests", awsFilterExpression) (by decide) (by decide)
      simp_all [iqe_filter_expression]
    · have haws := hothers ("aws-smoke-tests", awsFilterExpression) (by decide) (by decide)
      have hazure := hothers ("azure-smoke-tests", azureFilterExpression) (by decide) (by decide)
      simp_all [iqe_filter_expression]
    · have haws := hothers ("aws-smoke-tests", awsFilterExpression) (by decide) (by decide)
      have hazure := hothers ("azure-smoke-tests", azureFilterExpression) (by decide) (by decide)
      have hgcp := hothers ("gcp-smoke-tests", gcpFilterExpression) (by decide) (by decide)
      simp_all [iqe_filter_expression]

/-- C3 witness: override wins at a concrete label set, a sole
gcp-smoke-tests label selects the gcp expression, and the empty label
set selects the empty expression. -/
theorem iqe_filter_selection_witness :
    iqe_filter_expression "X" ["aws-smoke-tests"] = "X" ∧
    iqe_filter_expression "" ["gcp-smoke-tests"] = gcpFilterExpression ∧
    iqe_filter_expression "" [] = "" :=
  ⟨(iqe_filter_selection "X" ["aws-smoke-tests"]).1 (by decide),
   (iqe_filter_selection "" ["gcp-smoke-tests"]).2.2.2
     ("gcp-smoke-tests", gcpFilterExpression) (by decide) (by decide) (by decide),
   (iqe_filter_selection "" []).2.2.1 rfl rfl rfl rfl rfl rfl rfl rfl rfl⟩

/-- C5: the verdict of check_cji_jobs is a function of the freshly
fetched job status map alone: when every sub-job reports Complete the
run reports the map and exits 0; when any sub-job reports any other
state the run is classified as partially failed, the full map is
reported for diagnosis, and the process exits with the nonzero code
1. -/
theorem cji_verdict_classification (jobMap : List (String × String)) :
    ((∀ p ∈ jobMap, p.2 = "Complete") →
      check_cji_jobs jobMap = (.allSucceeded jobMap, 0)) ∧
    ((∃ p ∈ jobMap, p.2 ≠ "Complete") →
      check_cji_jobs jobMap = (.someFailed jobMap, 1)) := by
  constructor
  · intro h
    have hfalse : jobMap.any (fun p => p.2 != "Complete") = false := by
      simp only [List.any_eq_false, bne_iff_ne, ne_eq, Decidable.not_not]
      exact h
    simp [check_cji_jobs, hfalse]
  · intro h
    have htrue : jobMap.any (fun p => p.2 != "Complete") = true := by
      rcases h with ⟨p, hp, hne⟩
      exact List.any_eq_true.mpr ⟨p, hp, by simpa using hne⟩
    simp [check_cji_jobs, htrue]

/-- C5 witness: the job map of the spec example, with sub-job b Failed,
yields the partially-failed report carrying the full map and exit code
1. -/
theorem cji_verdict_classification_witness :
    check_cji_jobs [("a", "Complete"), ("b", "Failed")] =
      (.someFailed [("a", "Complete"), ("b", "Failed")], 1) :=
  (cji_verdict_classification [("a", "Complete"), ("b", "Failed")]).2
    ⟨("b", "Failed"), by decide, by decide⟩

/-- C6: timeout resolution never raises: whenever fuzzydate parsing of
the environment value fails, get_timeout logs a warning and, absent the
full-run label, returns the fixed 2-hour default 7200 instead of
aborting; and whenever the label set contains full-run-smoke-tests the
result is the fixed extended ceiling 18000, overriding whatever the
parse produced. -/
theorem timeout_resolution (to_seconds : String → Except String Nat)
    (envValue : Option String) (labels : List String) :
    (∀ e, to_seconds (envValue.getD "2h") = .error e →
      (get_timeout to_seconds envValue labels).2 ≠ [] ∧
      (labels.contains "full-run-smoke-tests" = false →
        (get_timeout to_seconds envValue labels).1 = 7200)) ∧
    (labels.contains "full-run-smoke-tests" = true →
      (get_timeout to_seconds envValue labels).1 = 18000) := by
  constructor
  · intro e he
    constructor
    · simp only [get_timeout, he]
      split <;> simp
    · intro hc
      simp_all [get_timeout]
  · intro hc
    have hmem : "full-run-smoke-tests" ∈ labels := by simpa using hc
    have hnil : labels ≠ [] := List.ne_nil_of_mem hmem
    simp_all [get_timeout]

/-- C6 witness: an unparsable duration yields a warning and 7200 with
no full-run label, and the full-run label forces 18000 even when the
parse succeeds with a different value. -/
theorem timeout_resolution_witness :
    (get_timeout (fun _ => .error "bad duration") (some "not-a-duration") []).2 ≠ [] ∧
    (get_timeout (fun _ => .error "bad duration") (some "not-a-duration") []).1 = 7200 ∧
    (get_timeout (fun _ => .ok 60) none ["full-run-smoke-tests"]).1 = 18000 := by
  refine ⟨?_, ?_, ?_⟩
  · exact ((timeout_resolution (fun _ => .error "bad duration") (some "not-a-duration") []).1
      "bad duration" rfl).1
  · exact ((timeout_resolution (fun _ => .error "bad duration") (some "not-a-duration") []).1
      "bad duration" rfl).2 rfl
  · exact (timeout_resolution (fun _ => .ok 60) none ["full-run-smoke-tests"]).2 (by decide)

/-- A component mapping lacking the containerImage key anywhere in the
list makes the whole validation abort with the uncaught KeyError. -/
theorem validateComponents_keyError {comps : List RawComponent}
    (h : ∃ rc ∈ comps, rc.containerImage = none) :
    validateComponents comps = .keyError := by
  induction comps with
  | nil => rcases h with ⟨rc, hmem, _⟩; cases hmem
  | cons a rest ih =>
    rcases h with ⟨rc, hmem, hnone⟩
    rcases List.mem_cons.mp hmem with heq | hmem2
    · subst heq
      have hva : validateComponent rc = .keyError := by simp [validateComponent, hnone]
      cases hr : validateComponents rest <;> simp [validateComponents, hva, hr]
    · have hrest := ih ⟨rc, hmem2, hnone⟩
      cases ha : validateComponent a <;> simp [validateComponents, ha, hrest]

/-- When every component mapping carries the containerImage key, no
KeyError can arise. -/
theorem validateComponents_no_keyError {comps : List RawComponent}
    (h : ∀ rc ∈ comps, rc.containerImage.isSome = true) :
    validateComponents comps ≠ .keyError := by
  induction comps with
  | nil => simp [validateComponents]
  | cons a rest ih =>
    have ha := h a (List.mem_cons_self a rest)
    have hrest := ih (fun rc hrc => h rc (List.mem_cons_of_mem a hrc))
    rcases Option.isSome_iff_exists.mp ha with ⟨img, himg⟩
    have hva : validateComponent a ≠ ComponentValidation.keyError := by
      cases hs : splitImage img with
      | none => simp [validateComponent, himg, hs]
      | some p => simp [validateComponent, himg, hs]
    cases hv : validateComponent a with
    | keyError => exact absurd hv hva
    | valueError =>
      cases hr : validateComponents rest with
      | keyError => exact absurd hr hrest
      | validationError => simp [validateComponents, hv, hr]
      | parsed cs => simp [validateComponents, hv, hr]
    | parsed c =>
      cases hr : validateComponents rest with
      | keyError => exact absurd hr hrest
      | validationError => simp [validateComponents, hv, hr]
      | parsed cs => simp [validateComponents, hv, hr]

/-- With every containerImage key present, any badly shaped image
string makes the whole validation fail as a ValidationError. -/
theorem validateComponents_valueError {comps : List RawComponent}
    (hall : ∀ rc ∈ comps, rc.containerImage.isSome = true)
    (hbad : ∃ rc ∈ comps, ∃ img, rc.containerImage = some img ∧ splitImage img = none) :
    validateComponents comps = .validationError := by
  induction comps with
  | nil => rcases hbad with ⟨rc, hmem, _⟩; cases hmem
  | cons a rest ih =>
    have hrestall := fun rc hrc => hall rc (List.mem_cons_of_mem a hrc)
    have hnk := validateComponents_no_keyError hrestall
    rcases hbad with ⟨rc, hmem, img, himg, hsplit⟩
    rcases List.mem_cons.mp hmem with heq | hmem2
    · subst heq
      have hva : validateComponent rc = .valueError := by
        simp [validateComponent, himg, hsplit]
      cases hr : validateComponents rest with
      | keyError => exact absurd hr hnk
      | validationError => simp [validateComponents, hva, hr]
      | parsed cs => simp [validateComponents, hva, hr]
    · have hrest := ih hrestall ⟨rc, hmem2, img, himg, hsplit⟩
      have ha := hall a (List.mem_cons_self a rest)
      rcases Option.isSome_iff_exists.mp ha with ⟨ia, hia⟩
      have hva : validateComponent a ≠ ComponentValidation.keyError := by
        cases hs : splitImage ia with
        | none => simp [validateComponent, hia, hs]
        | some p => simp [validateComponent, hia, hs]
      cases hv : validateComponent a with
      | keyError => exact absurd hv hva
      | valueError => simp [validateComponents, hv, hrest]
      | parsed c => simp [validateComponents, hv, hrest]

/-- When every component has a present and well-shaped image, validation
succeeds with exactly one parsed component per raw component. -/
theorem validateComponents_parsed {comps : List RawComponent}
    (h : ∀ rc ∈ comps, hasValidImage rc = true) :
    ∃ cs, validateComponents comps = .parsed cs ∧ cs.length = comps.length := by
  induction comps with
  | nil => exact ⟨[], rfl, rfl⟩
  | cons a rest ih =>
    have ha := h a (List.mem_cons_self a rest)
    rcases ih (fun rc hrc => h rc (List.mem_cons_of_mem a hrc)) with ⟨cs, hcs, hlen⟩
    cases himg : a.containerImage with
    | none => simp [hasValidImage, himg] at ha
    | some img =>
      rw [hasValidImage] at ha
      rw [himg] at ha
      rcases Option.isSome_iff_exists.mp ha with ⟨p, hp⟩
      exact ⟨{ name := a.name, container_image := { image := p.1, sha := p.2 },
               source := a.source } :: cs,
             by simp [validateComponents, validateComponent, himg, hp, hcs],
             by simp [hlen]⟩

/-- C7 counterexample: a payload that is not well-formed structured
data because its single component mapping lacks the containerImage key
terminates the run through an uncaught KeyError traceback, not through
the sys.exit diagnostic echoing the offending payload that the claim
guarantees for every such failure. -/
theorem snapshot_parse_echo_counterexample :
    snapshotOrExit (.wellFormed "koku" [sampleMissingKeyRawComponent]) "raw-payload"
      = .uncaughtException ∧
    SnapshotOutcome.uncaughtException
      ≠ .exitWithDiagnostic ("Missing or invalid SNAPSHOT: " ++ "raw-payload") := by
  constructor
  · rfl
  · intro h
    cases h

/-- C7 (amended): snapshot parsing never yields a partial value and
every failure is fatal, but the echoed diagnostic accompanies exactly
the failures pydantic reports as a ValidationError: an absent or
structurally rejected payload, and any component whose containerImage
string lacks the repository-at-sha256-digest shape, terminate via
sys.exit echoing the offending payload; a component mapping that lacks
the containerImage key instead terminates through an uncaught KeyError
without the echo; and when every component image is present and
well-shaped, a full Snapshot with one parsed component per raw
component results. -/
theorem snapshot_parse_amended (raw : RawPayload) (payloadStr : String) :
    (raw = .malformed →
      snapshotOrExit raw payloadStr
        = .exitWithDiagnostic ("Missing or invalid SNAPSHOT: " ++ payloadStr)) ∧
    (∀ app comps, raw = .wellFormed app comps →
      ((∃ rc ∈ comps, rc.containerImage = none) →
        snapshotOrExit raw payloadStr = .uncaughtException) ∧
      ((∀ rc ∈ comps, rc.containerImage.isSome = true) →
        (∃ rc ∈ comps, ∃ img, rc.containerImage = some img ∧ splitImage img = none) →
        snapshotOrExit raw payloadStr
          = .exitWithDiagnostic ("Missing or invalid SNAPSHOT: " ++ payloadStr)) ∧
      ((∀ rc ∈ comps, hasValidImage rc = true) →
        ∃ s, snapshotOrExit raw payloadStr = .ok s ∧ s.application = app ∧
          s.components.length = comps.length)) := by
  constructor
  · intro h
    subst h
    rfl
  · intro app comps hraw
    subst hraw
    refine ⟨?_, ?_, ?_⟩
    · intro hk
      have hv := validateComponents_keyError hk
      simp [snapshotOrExit, hv]
    · intro hall hbad
      have hv := validateComponents_valueError hall hbad
      simp [snapshotOrExit, hv]
    · intro hgood
      rcases validateComponents_parsed hgood with ⟨cs, hcs, hlen⟩
      exact ⟨{ application := app, components := cs },
             by simp [snapshotOrExit, hcs], rfl, hlen⟩

/-- C7 witness: the three outcomes at concrete payloads: a badly shaped
image string exits with the echoed payload, a missing containerImage
key crashes without the echo, and a well-shaped payload parses into a
one-component snapshot. -/
theorem snapshot_parse_witness :
    snapshotOrExit (.wellFormed "koku" [sampleBadRawComponent]) "raw-payload"
      = .exitWithDiagnostic ("Missing or invalid SNAPSHOT: " ++ "raw-payload") ∧
    snapshotOrExit (.wellFormed "koku" [sampleMissingKeyRawComponent]) "p3"
      = .uncaughtException ∧
    (∃ s, snapshotOrExit (.wellFormed "koku" [sampleGoodRawComponent]) "p2" = .ok s ∧
      s.application = "koku" ∧ s.components.length = 1) := by
  refine ⟨?_, ?_, ?_⟩
  · exact ((snapshot_parse_amended _ "raw-payload").2 "koku" _ rfl).2.1 (by decide)
      ⟨sampleBadRawComponent, by decide, "quay.io/koku", by decide, by decide⟩
  · exact ((snapshot_parse_amended _ "p3").2 "koku" _ rfl).1
      ⟨sampleMissingKeyRawComponent, by decide, by decide⟩
  · exact ((snapshot_parse_amended _ "p2").2 "koku" _ rfl).2.2 (by decide)

/-- Template-reference counting distributes over append. -/
theorem countTemplateRefs_append (a b : List BonfireOption) :
    countTemplateRefs (a ++ b) = countTemplateRefs a + countTemplateRefs b := by
  simp [countTemplateRefs]

/-- Parameter counting distributes over append. -/
theorem countSetParameters_append (a b : List BonfireOption) :
    countSetParameters (a ++ b) = countSetParameters a + countSetParameters b := by
  simp [countSetParameters]

/-- Each component contributes exactly one template-reference binding. -/
theorem countTemplateRefs_block (pre bn bName : String) (rnd : Nat) (c : Component) :
    countTemplateRefs (optionsForComponent pre bn bName rnd c) = 1 := by
  by_cases h : componentName bName c = "koku" <;>
    simp [optionsForComponent, countTemplateRefs, h]

/-- Each component contributes five parameter pairs, six when its
effective name is koku. -/
theorem countSetParameters_block (pre bn bName : String) (rnd : Nat) (c : Component) :
    countSetParameters (optionsForComponent pre bn bName rnd c)
      = if componentName bName c = "koku" then 6 else 5 := by
  by_cases h : componentName bName c = "koku" <;>
    simp [optionsForComponent, countSetParameters, h]

/-- The loop emits one template reference per component. -/
theorem countTemplateRefs_from (pre bn bName : String) (rand : Nat → Nat) :
    ∀ (comps : List Component) (i : Nat),
      countTemplateRefs (componentOptionsFrom pre bn bName rand i comps) = comps.length := by
  intro comps
  induction comps with
  | nil => intro i; rfl
  | cons c rest ih =>
    intro i
    simp [componentOptionsFrom, countTemplateRefs_append, countTemplateRefs_block, ih]
    omega

/-- The loop emits five parameter pairs per component plus one extra per
component whose effective name is koku. -/
theorem countSetParameters_from (pre bn bName : String) (rand : Nat → Nat) :
    ∀ (comps : List Component) (i : Nat),
      countSetParameters (componentOptionsFrom pre bn bName rand i comps)
        = 5 * comps.length + (comps.filter fun c => componentName bName c == "koku").length := by
  intro comps
  induction comps with
  | nil => intro i; rfl
  | cons c rest ih =>
    intro i
    by_cases h : componentName bName c = "koku" <;>
      simp [componentOptionsFrom, countSetParameters_append, countSetParameters_block, ih,
        List.filter_cons, h] <;> omega

/-- The template-reference values appear in component order, one per
component, binding the effective name to the full source revision. -/
theorem templateRefs_from (pre bn bName : String) (rand : Nat → Nat) :
    ∀ (comps : List Component) (i : Nat),
      (componentOptionsFrom pre bn bName rand i comps).filterMap templateRefValue
        = comps.map (fun c => componentName bName c ++ "=" ++ c.source.git.revision) := by
  intro comps
  induction comps with
  | nil => intro i; rfl
  | cons c rest ih =>
    intro i
    by_cases h : componentName bName c = "koku" <;>
      simp [componentOptionsFrom, optionsForComponent, templateRefValue, h, ih]

/-- Everything contributed by the j-th component is in the full option
list, with the j-th entropy value. -/
theorem mem_componentOptionsFrom (pre bn bName : String) (rand : Nat → Nat) :
    ∀ (comps : List Component) (i j : Nat) (hj : j < comps.length) (x : BonfireOption),
      x ∈ optionsForComponent pre bn bName (rand (i + j)) (comps.get ⟨j, hj⟩) →
      x ∈ componentOptionsFrom pre bn bName rand i comps := by
  intro comps
  induction comps with
  | nil => intro i j hj; exact absurd hj (Nat.not_lt_zero j)
  | cons c rest ih =>
    intro i j hj x hx
    cases j with
    | zero =>
      simp only [componentOptionsFrom]
      apply List.mem_append_left
      simpa using hx
    | succ j =>
      simp only [componentOptionsFrom]
      apply List.mem_append_right
      have h2 : j < rest.length := Nat.lt_of_succ_lt_succ hj
      have heq : i + (j + 1) = (i + 1) + j := by omega
      rw [heq] at hx
      exact ih (i + 1) j h2 x hx

/-- C8: with the BONFIRE_COMPONENT_NAME override unset and exactly one
component named koku (the single designated component), building the
invocation from N components yields exactly N template-reference
bindings and exactly 5N+1 parameter pairs; the template references
appear in component order, binding each component name to its full
source revision; and every component contributes its image binding, an
image-tag binding whose tag is the optional pr-number- plus the
7-character short revision, the mirrored database-migration image and
tag bindings, and a randomized invocation counter whose emitted value
lies in the range 0 to 99. -/
theorem component_options_shape (pr_number build_number : String) (rand : Nat → Nat)
    (components : List Component)
    (hkoku : (components.filter fun c => c.name == "koku").length = 1) :
    countTemplateRefs (get_component_options "" pr_number build_number rand components)
      = components.length ∧
    countSetParameters (get_component_options "" pr_number build_number rand components)
      = 5 * components.length + 1 ∧
    (get_component_options "" pr_number build_number rand components).filterMap
        templateRefValue
      = components.map (fun c => c.name ++ "=" ++ c.source.git.revision) ∧
    (∀ j (hj : j < components.length),
      (BonfireOption.setParameter ((components.get ⟨j, hj⟩).name ++ "/IMAGE="
          ++ (components.get ⟨j, hj⟩).container_image.image)
        ∈ get_component_options "" pr_number build_number rand components) ∧
      (BonfireOption.setParameter ((components.get ⟨j, hj⟩).name ++ "/IMAGE_TAG="
          ++ (if pr_number != "" then "pr-" ++ pr_number ++ "-" else "")
          ++ strTake (components.get ⟨j, hj⟩).source.git.revision 7)
        ∈ get_component_options "" pr_number build_number rand components) ∧
      (BonfireOption.setParameter ((components.get ⟨j, hj⟩).name ++ "/DBM_IMAGE="
          ++ (components.get ⟨j, hj⟩).container_image.image)
        ∈ get_component_options "" pr_number build_number rand components) ∧
      (BonfireOption.setParameter ((components.get ⟨j, hj⟩).name ++ "/DBM_IMAGE_TAG="
          ++ (if pr_number != "" then "pr-" ++ pr_number ++ "-" else "")
          ++ strTake (components.get ⟨j, hj⟩).source.git.revision 7)
        ∈ get_component_options "" pr_number build_number rand components) ∧
      (BonfireOption.setParameter ((components.get ⟨j, hj⟩).name ++ "/DBM_INVOCATION="
          ++ toString (rand j % 100))
        ∈ get_component_options "" pr_number build_number rand components) ∧
      rand j % 100 < 100) := by
  refine ⟨?_, ?_, ?_, ?_⟩
  · simp only [get_component_options]
    exact countTemplateRefs_from _ _ _ _ components 0
  · simp only [get_component_options]
    rw [countSetParameters_from]
    have hsame : (components.filter fun c => componentName "" c == "koku").length
        = (components.filter fun c => c.name == "koku").length := by
      simp [componentName]
    omega
  · simp only [get_component_options]
    rw [templateRefs_from]
    simp [componentName]
  · intro j hj
    refine ⟨?_, ?_, ?_, ?_, ?_, Nat.mod_lt _ (by norm_num)⟩ <;>
    · simp only [get_component_options]
      exact mem_componentOptionsFrom _ _ _ rand components 0 j hj _
        (by simp [optionsForComponent, componentName])

/-- C8 witness: a two-component snapshot whose first component is the
designated koku yields 2 template references and 11 parameter pairs. -/
theorem component_options_shape_witness :
    countTemplateRefs (get_component_options "" "12" "31510" (fun i => i)
        [sampleKokuComponent, sampleOtherComponent]) = 2 ∧
    countSetParameters (get_component_options "" "12" "31510" (fun i => i)
        [sampleKokuComponent, sampleOtherComponent]) = 11 := by
  have h := component_options_shape "12" "31510" (fun i => i)
    [sampleKokuComponent, sampleOtherComponent] (by decide)
  exact ⟨h.1, by simpa using h.2.1⟩
